import Mathlib

/-!
A shallow embedding of the order-management, product-card and report
components of the repository, together with proofs of the behavioural
properties stated in its specification.

The components are React function components; all the logic the claims
speak about lives in pure helper computations (filtering, pagination,
CSV serialisation) and in event handlers whose only effects are
 * remote calls against the database client (modelled by passing the
   remote response, the relevant table contents, and the error outcome
   of each call as explicit arguments),
 * toast notifications (collected in an output list), and
 * local component state updates (returned as values).
-/

namespace Colne

/-- Toast severity. A toast created without a `variant` field uses the
default styling; the repository also uses `destructive` and `success`. -/
inductive TVariant where
  | default
  | destructive
  | success
deriving DecidableEq, Repr

/-- A toast notification: `toast({ title, description, variant })`. -/
structure Toast where
  title : String
  description : String
  variant : TVariant
deriving DecidableEq, Repr

/-- JS `err.message || 'fallback'`: an empty message string is falsy and is
replaced by the fallback. -/
def orDefault (msg fallback : String) : String :=
  if msg.isEmpty then fallback else msg

/-- Type `OrderStatus` from the orders page: the closed status enumeration. -/
inductive OrderStatus where
  | pending
  | processing
  | shipped
  | completed
  | cancelled
deriving DecidableEq, Repr

/-- String interpolation of a status value (the TS values are the literal
strings themselves). -/
def statusToString : OrderStatus → String
  | .pending => "pending"
  | .processing => "processing"
  | .shipped => "shipped"
  | .completed => "completed"
  | .cancelled => "cancelled"

/-- Type `OrderItem` from the orders page. -/
structure OrderItem where
  id : Int
  name : String
  price : Int
  quantity : Int
deriving DecidableEq, Repr

/-- Type `ShippingAddress` from the orders page. -/
structure ShippingAddress where
  line1 : String
  line2 : Option String
  city : String
  state : String
  postal_code : String
deriving DecidableEq, Repr

/-- Type `Order` from the orders page. -/
structure Order where
  id : String
  customer_name : String
  customer_email : String
  order_date : String
  status : OrderStatus
  total_amount : Int
  items : List OrderItem
  shipping_address : ShippingAddress
deriving DecidableEq, Repr

/-- The status filter state: `OrderStatus | 'all'`. -/
inductive StatusFilter where
  | all
  | only (s : OrderStatus)
deriving DecidableEq, Repr

/-! ### String helpers

JS `String.prototype.includes` is substring containment; we define it
over the character lists of the strings. -/

/-- Predicate `isPrefixCh pat s` holds when `pat` is an initial segment of `s`. -/
def isPrefixCh : List Char → List Char → Bool
  | [], _ => true
  | _ :: _, [] => false
  | a :: as, b :: bs => a == b && isPrefixCh as bs

/-- Predicate `containsCh pat s` holds when `pat` occurs contiguously inside `s`. -/
def containsCh (pat : List Char) : List Char → Bool
  | [] => isPrefixCh pat []
  | c :: rest => isPrefixCh pat (c :: rest) || containsCh pat rest

/-- JS `s.includes(sub)`. -/
def jsIncludes (s sub : String) : Bool :=
  containsCh sub.data s.data

/-- JS `Array.prototype.join(sep)` on an array of strings. -/
def joinWith (sep : String) : List String → String
  | [] => ""
  | [x] => x
  | x :: y :: rest => x ++ sep ++ joinWith sep (y :: rest)

/-- Occurrences of the character `c` in `s`. -/
def countChar (c : Char) (s : String) : Nat :=
  s.data.count c

/-! ### Order List View (orders page) -/

/-- Constant `ordersPerPage = 10`. -/
def ordersPerPage : Nat := 10

/-- The search predicate of `filteredOrders`: identifier, customer name or
customer email contains the search term, case-insensitively. -/
def matchesSearch (o : Order) (searchTerm : String) : Bool :=
  jsIncludes o.id.toLower searchTerm.toLower ||
  jsIncludes o.customer_name.toLower searchTerm.toLower ||
  jsIncludes o.customer_email.toLower searchTerm.toLower

/-- The status predicate of `filteredOrders`:
`statusFilter === 'all' || order.status === statusFilter`. -/
def matchesStatus (o : Order) : StatusFilter → Bool
  | .all => true
  | .only s => decide (o.status = s)

/-- Computation `filteredOrders`: the orders passing both predicates. -/
def filteredOrders (orders : List Order) (searchTerm : String)
    (statusFilter : StatusFilter) : List Order :=
  orders.filter (fun o => matchesSearch o searchTerm && matchesStatus o statusFilter)

/-- Computation `pageCount = Math.ceil(filteredOrders.length / ordersPerPage)`; on a
natural count this exact ceiling is `(n + 10 - 1) / 10` in `Nat` division. -/
def pageCount (filteredLen : Nat) : Nat :=
  (filteredLen + ordersPerPage - 1) / ordersPerPage

/-- Computation `currentOrders = filteredOrders.slice(indexOfFirstOrder, indexOfLastOrder)`
with `indexOfLastOrder = currentPage * ordersPerPage` and
`indexOfFirstOrder = indexOfLastOrder - ordersPerPage`. JS `slice(a, b)`
with `0 ≤ a ≤ b` takes the elements at offsets `a, …, b - 1`. -/
def currentOrders (filtered : List Order) (currentPage : Nat) : List Order :=
  let indexOfLastOrder := currentPage * ordersPerPage
  let indexOfFirstOrder := indexOfLastOrder - ordersPerPage
  (filtered.drop indexOfFirstOrder).take (indexOfLastOrder - indexOfFirstOrder)

/-- The pagination block is rendered only under
`filteredOrders.length > 0 && (...)`. -/
def paginationRendered (filteredLen : Nat) : Bool :=
  decide (0 < filteredLen)

/-- The rendered page-number links:
`Array.from({length: Math.min(5, pageCount)}, (_, i) => ...)` where each
entry is `Math.max(1, Math.min(currentPage - 2 + i, pageCount))`, rendered
unless the guard `pageNumber > pageCount` discards it. The arithmetic is
on JS numbers, so it is carried out in `Int`. -/
def pageLinks (currentPage pgCount : Nat) : List Int :=
  (List.range (min 5 pgCount)).filterMap (fun i : Nat =>
    let pageNumber : Int := max 1 (min ((currentPage : Int) - 2 + (i : Int)) (pgCount : Int))
    if pageNumber > (pgCount : Int) then none else some pageNumber)

/-- Remote operations issued by the orders page. -/
inductive OrdersOp where
  | selectAll
  | updateById (id : String) (s : OrderStatus)
deriving DecidableEq, Repr

/-- Result of running `updateOrderStatus`: the new `orders` state, the
toasts raised, and the remote operations issued. -/
structure UpdateOutcome where
  orders : List Order
  toasts : List Toast
  ops : List OrdersOp
deriving DecidableEq, Repr

/-- Handler `updateOrderStatus(orderId, newStatus)`. The remote
`update({status}).eq('id', orderId).select()` call is modelled by its
response `resp`: either an error or the list of rows the backend returned.
On error the catch block raises a destructive toast; on an empty row set a
destructive "Failed to update status" toast is raised; otherwise the rows
of `orders` whose id equals `orderId` get the status of the first returned
row, and a confirmation toast is raised. No further remote call is made. -/
def updateOrderStatus (orders : List Order) (orderId : String)
    (newStatus : OrderStatus) (resp : Except String (List Order)) :
    UpdateOutcome :=
  match resp with
  | .error msg =>
      ⟨orders,
       [⟨"Error updating status", orDefault msg "An unexpected error occurred.", .destructive⟩],
       [.updateById orderId newStatus]⟩
  | .ok data =>
      match data with
      | updatedOrder :: _ =>
          ⟨orders.map (fun o =>
             if o.id = orderId then { o with status := updatedOrder.status } else o),
           [⟨"Order status updated",
             "Order " ++ orderId ++ " status changed to " ++ statusToString newStatus,
             .default⟩],
           [.updateById orderId newStatus]⟩
      | [] =>
          ⟨orders,
           [⟨"Failed to update status", "Order not found or no changes made.", .destructive⟩],
           [.updateById orderId newStatus]⟩

/-! ### Product Card: cart and wishlist handlers -/

/-- A row of the `cart_items` table. -/
structure CartRow where
  user_id : Nat
  product_id : Int
  quantity : Int
deriving DecidableEq, Repr

/-- A row of the `wishlist` table. -/
structure WishRow where
  user_id : Nat
  product_id : Int
deriving DecidableEq, Repr

/-- Mutations the cart handler can issue. -/
inductive CartOp where
  | insertRow (r : CartRow)
deriving DecidableEq, Repr

/-- Mutations the wishlist handler can issue. -/
inductive WishOp where
  | insertRow (r : WishRow)
  | deleteRow (user_id : Nat) (product_id : Int)
deriving DecidableEq, Repr

/-- Result of `handleAddToCart`: the new table contents, the toasts raised
and the mutations issued. -/
structure CartOutcome where
  cart : List CartRow
  toasts : List Toast
  ops : List CartOp
deriving DecidableEq, Repr

/-- Result of `handleToggleWishlist`: the new `isWishlisted` flag, the new
table contents, the toasts raised and the mutations issued. -/
structure WishOutcome where
  wishlisted : Bool
  db : List WishRow
  toasts : List Toast
  ops : List WishOp
deriving DecidableEq, Repr

/-- Number of `cart_items` rows for the `(user, product)` pair. -/
def cartPairCount (cart : List CartRow) (uid : Nat) (pid : Int) : Nat :=
  (cart.filter (fun r => decide (r.user_id = uid ∧ r.product_id = pid))).length

/-- Number of `wishlist` rows for the `(user, product)` pair. -/
def wishPairCount (db : List WishRow) (uid : Nat) (pid : Int) : Nat :=
  (db.filter (fun r => decide (r.user_id = uid ∧ r.product_id = pid))).length

/-- Handler `handleAddToCart`. Argument `user` is the authenticated user id (or `none`),
`inStock` the product's stock flag, `cart` the current `cart_items` rows.
The two remote calls are modelled by their error outcomes `fetchErr` and
`insertErr` (`none` means success). The existence check
`.eq('user_id', ...).eq('product_id', ...).maybeSingle()` returns the
matching row when one exists (the table holds at most one row per pair). -/
def handleAddToCart (user : Option Nat) (inStock : Bool) (name : String)
    (pid : Int) (cart : List CartRow)
    (fetchErr insertErr : Option String) : CartOutcome :=
  match user with
  | none =>
      ⟨cart, [⟨"Login Required", "Please log in to add items to your cart.", .destructive⟩], []⟩
  | some uid =>
      if inStock = false then
        ⟨cart, [⟨"Out of Stock", "This product is currently out of stock.", .destructive⟩], []⟩
      else
        match fetchErr with
        | some e =>
            ⟨cart, [⟨"Error Adding to Cart", orDefault e "An unexpected error occurred.", .destructive⟩], []⟩
        | none =>
            let existingCartItem :=
              (cart.filter (fun r => decide (r.user_id = uid ∧ r.product_id = pid))).head?
            match existingCartItem with
            | some _ =>
                ⟨cart, [⟨"Already in Cart", name ++ " is already in your cart.", .default⟩], []⟩
            | none =>
                match insertErr with
                | some e =>
                    ⟨cart,
                     [⟨"Error Adding to Cart", orDefault e "An unexpected error occurred.", .destructive⟩],
                     [.insertRow ⟨uid, pid, 1⟩]⟩
                | none =>
                    ⟨cart ++ [⟨uid, pid, 1⟩],
                     [⟨"Added to Cart", name ++ " has been added to your cart.", .success⟩],
                     [.insertRow ⟨uid, pid, 1⟩]⟩

/-- Handler `handleToggleWishlist`. Argument `isWishlisted` is the component's membership
flag, `db` the current `wishlist` rows; the single remote mutation of the
taken branch is modelled by its error outcome `remoteErr`. Deleting uses
`.match({user_id, product_id})`, removing every matching row; inserting
appends one `(user, product)` row. -/
def handleToggleWishlist (user : Option Nat) (name : String) (pid : Int)
    (isWishlisted : Bool) (db : List WishRow)
    (remoteErr : Option String) : WishOutcome :=
  match user with
  | none =>
      ⟨isWishlisted, db,
       [⟨"Login Required", "Please log in to add items to your wishlist.", .destructive⟩], []⟩
  | some uid =>
      if isWishlisted then
        match remoteErr with
        | some e =>
            ⟨isWishlisted, db,
             [⟨"Error Updating Wishlist", orDefault e "An unexpected error occurred.", .destructive⟩],
             [.deleteRow uid pid]⟩
        | none =>
            ⟨false,
             db.filter (fun r => !(decide (r.user_id = uid ∧ r.product_id = pid))),
             [⟨"Removed from Wishlist", name ++ " has been removed from your wishlist.", .default⟩],
             [.deleteRow uid pid]⟩
      else
        match remoteErr with
        | some e =>
            ⟨isWishlisted, db,
             [⟨"Error Updating Wishlist", orDefault e "An unexpected error occurred.", .destructive⟩],
             [.insertRow ⟨uid, pid⟩]⟩
        | none =>
            ⟨true, db ++ [⟨uid, pid⟩],
             [⟨"Added to Wishlist", name ++ " has been added to your wishlist.", .success⟩],
             [.insertRow ⟨uid, pid⟩]⟩

/-! ### Quick Actions: CSV report generator -/

/-- Type `OrderReportData`: the six columns selected for the report. -/
structure ReportOrder where
  id : String
  customer_name : String
  customer_email : String
  order_date : String
  status : String
  total_amount : Int
deriving DecidableEq, Repr

/-- Result of `handleGenerateReport`: the files downloaded (filename and
content) and the toasts raised. -/
structure ReportOutcome where
  downloads : List (String × String)
  toasts : List Toast
deriving DecidableEq, Repr

/-- The CSV header cells. -/
def csvHeaders : List String :=
  ["Order ID", "Customer Name", "Customer Email", "Order Date", "Status", "Total Amount"]

/-- One CSV data row: the six fields of an order joined by commas. The
`format(new Date(...), 'yyyy-MM-dd HH:mm:ss')` call on the date is the
external date library, modelled by the argument `fmtDate`. -/
def csvRow (fmtDate : String → String) (o : ReportOrder) : String :=
  joinWith ","
    [o.id, o.customer_name, o.customer_email, fmtDate o.order_date, o.status,
     toString o.total_amount]

/-- The whole CSV text: header line then one line per order, joined by
newlines. -/
def csvText (fmtDate : String → String) (orders : List ReportOrder) : String :=
  joinWith "\n" (joinWith "," csvHeaders :: orders.map (csvRow fmtDate))

/-- The progress toast raised unconditionally at the start of
`handleGenerateReport`. -/
def generatingToast : Toast :=
  ⟨"Generating Report...", "Please wait while we fetch and process the order data.", .default⟩

/-- Handler `handleGenerateReport`. The remote select is modelled by its response
`resp`. With an error a destructive toast is raised; with zero rows a
default-variant "No Data" toast is raised and no file is produced;
otherwise the CSV text is downloaded as `orders_report.csv` and a success
toast is raised. -/
def handleGenerateReport (fmtDate : String → String)
    (resp : Except String (List ReportOrder)) : ReportOutcome :=
  match resp with
  | .error e =>
      ⟨[], [generatingToast,
            ⟨"Error Generating Report", orDefault e "An unexpected error occurred.", .destructive⟩]⟩
  | .ok data =>
      match data with
      | [] =>
          ⟨[], [generatingToast,
                ⟨"No Data", "No orders found to generate a report.", .default⟩]⟩
      | _ :: _ =>
          ⟨[("orders_report.csv", csvText fmtDate data)],
           [generatingToast,
            ⟨"Report Generated Successfully", "The orders report has been downloaded.", .success⟩]⟩

/-- Number of newline-separated lines of a text. -/
def numLines (s : String) : Nat :=
  countChar '\n' s + 1

/-- Running `handleToggleWishlist` once from flag `flag` over table `db`,
both remote mutations succeeding. -/
def toggleTwiceFirst (uid : Nat) (name : String) (pid : Int) (flag : Bool)
    (db : List WishRow) : WishOutcome :=
  handleToggleWishlist (some uid) name pid flag db none

/-- Running `handleToggleWishlist` a second time, from the state produced
by the first run. -/
def toggleTwiceSecond (uid : Nat) (name : String) (pid : Int) (flag : Bool)
    (db : List WishRow) : WishOutcome :=
  handleToggleWishlist (some uid) name pid
    (toggleTwiceFirst uid name pid flag db).wishlisted
    (toggleTwiceFirst uid name pid flag db).db none

/-! ### Concrete sample data -/

/-- A concrete shipping address. -/
def sampleAddress : ShippingAddress := ⟨"12 Main St", none, "Kochi", "KL", "682001"⟩

/-- A concrete order. -/
def sampleOrder : Order :=
  ⟨"ord-1", "Asha", "asha@example.com", "2024-01-01", .pending, 100, [], sampleAddress⟩

/-- Copy of `sampleOrder` after its status was set to `shipped`. -/
def sampleShipped : Order := { sampleOrder with status := .shipped }

/-- A backend row for order `ord-1` whose status is `shipped` but whose
customer name differs from the local copy. -/
def backendRow : Order :=
  { sampleOrder with customer_name := "Backend", status := .shipped }

/-- Twenty-three concrete orders with distinct identifiers. -/
def sampleOrders23 : List Order :=
  (List.range 23).map (fun i => { sampleOrder with id := "ord-" ++ toString i })

/-- A concrete report row. -/
def sampleReport : ReportOrder :=
  ⟨"ord-1", "Asha", "asha@example.com", "2024-01-01", "pending", 100⟩

/-- A concrete date formatter. -/
def sampleFmt : String → String := fun _ => "2024-01-01 00:00:00"

/-! ## Theorems -/

/-- C1: the filtered order set contains exactly the orders of the input
list whose identifier, customer name or customer email contains the search
term case-insensitively and whose status passes the status filter, and
filtering its own output again returns the same list. -/
theorem filteredOrders_correct (orders : List Order) (searchTerm : String)
    (statusFilter : StatusFilter) :
    (∀ o : Order,
      o ∈ filteredOrders orders searchTerm statusFilter ↔
        o ∈ orders ∧
        (jsIncludes o.id.toLower searchTerm.toLower = true ∨
         jsIncludes o.customer_name.toLower searchTerm.toLower = true ∨
         jsIncludes o.customer_email.toLower searchTerm.toLower = true) ∧
        (statusFilter = .all ∨ statusFilter = .only o.status)) ∧
    filteredOrders (filteredOrders orders searchTerm statusFilter) searchTerm statusFilter
      = filteredOrders orders searchTerm statusFilter := by
  constructor
  · intro o
    cases statusFilter with
    | all =>
        simp [filteredOrders, List.mem_filter, matchesSearch, matchesStatus, or_assoc]
    | only s =>
        simp only [filteredOrders, List.mem_filter, matchesSearch, matchesStatus,
          Bool.and_eq_true, Bool.or_eq_true, decide_eq_true_eq, or_assoc]
        constructor
        · rintro ⟨hm, hs, hst⟩
          exact ⟨hm, hs, Or.inr (by rw [hst])⟩
        · rintro ⟨hm, hs, hst⟩
          refine ⟨hm, hs, ?_⟩
          rcases hst with h | h
          · exact absurd h (by simp)
          · injection h with h2
            exact h2.symm
  · show (List.filter _ orders).filter _ = List.filter _ orders
    apply List.filter_eq_self.mpr
    intro a ha
    exact (List.mem_filter.mp ha).2

/-- C3: when the status-update call returns a remote error, the local
orders list is returned unchanged and the single toast raised is the
destructive "Error updating status" notification. -/
theorem updateOrderStatus_error (orders : List Order) (orderId : String)
    (newStatus : OrderStatus) (msg : String) :
    (updateOrderStatus orders orderId newStatus (.error msg)).orders = orders ∧
    (updateOrderStatus orders orderId newStatus (.error msg)).toasts
      = [⟨"Error updating status", orDefault msg "An unexpected error occurred.",
          .destructive⟩] :=
  ⟨rfl, rfl⟩

/-- C4: the page count is the ceiling of the filtered count divided by
ten (characterised by `n ≤ 10 ·pageCount n < n + 10`), and with a filtered
count of zero the page count is zero, the pagination block is not
rendered, and no page link exists. -/
theorem pageCount_correct (n cp : Nat) :
    (n ≤ ordersPerPage * pageCount n ∧
     ordersPerPage * pageCount n < n + ordersPerPage) ∧
    (n = 0 → pageCount n = 0 ∧ paginationRendered n = false ∧
       pageLinks cp (pageCount n) = []) := by
  constructor
  · simp only [pageCount, ordersPerPage]
    omega
  · intro h
    subst h
    refine ⟨by decide, by decide, ?_⟩
    have hpc : pageCount 0 = 0 := by decide
    rw [hpc]
    simp [pageLinks]

/-- Witness for C4 at `n = 0`. -/
theorem pageCount_correct_witness :
    pageCount 0 = 0 ∧ paginationRendered 0 = false ∧ pageLinks 1 (pageCount 0) = [] :=
  (pageCount_correct 0 1).2 rfl

/-- C5: for a current page `p ≥ 1` the displayed rows are exactly the
filtered orders at zero-based offsets `(p-1)·10` through
`min(p·10, filteredCount) - 1`. -/
theorem currentOrders_correct (filtered : List Order) (p : Nat) (hp : 1 ≤ p) :
    (currentOrders filtered p).length
      = min (p * ordersPerPage) filtered.length - (p - 1) * ordersPerPage ∧
    ∀ j : Nat, j < (currentOrders filtered p).length →
      (currentOrders filtered p)[j]? = filtered[(p - 1) * ordersPerPage + j]? := by
  have hco : currentOrders filtered p
      = (filtered.drop ((p - 1) * ordersPerPage)).take ordersPerPage := by
    simp only [currentOrders, ordersPerPage]
    have h1 : p * 10 - 10 = (p - 1) * 10 := by omega
    have h2 : p * 10 - (p - 1) * 10 = 10 := by omega
    rw [h1, h2]
  constructor
  · rw [hco]
    simp only [List.length_take, List.length_drop, ordersPerPage]
    omega
  · intro j hj
    rw [hco] at hj ⊢
    have hjlt : j < ordersPerPage := by
      simp only [List.length_take] at hj
      omega
    rw [List.getElem?_take_of_lt hjlt, List.getElem?_drop]

/-- Witness for C5: with 23 filtered orders, page 3 shows the 3 orders at
offsets 20, 21 and 22. -/
theorem currentOrders_correct_witness :
    (currentOrders sampleOrders23 3).length = 3 ∧
    (currentOrders sampleOrders23 3)[0]? = sampleOrders23[20]? ∧
    (currentOrders sampleOrders23 3)[2]? = sampleOrders23[22]? := by
  have h := currentOrders_correct sampleOrders23 3 (by norm_num)
  have hlen : (currentOrders sampleOrders23 3).length = 3 := by
    rw [h.1]; rfl
  refine ⟨hlen, ?_, ?_⟩
  · have := h.2 0 (by rw [hlen]; norm_num)
    simpa [ordersPerPage] using this
  · have := h.2 2 (by rw [hlen]; norm_num)
    simpa [ordersPerPage] using this

/-- Auxiliary: a `filterMap` that returns `some (f a)` on every element of
the list is a `map`. -/
theorem filterMap_total_eq_map {α β : Type} (g : α → Option β) (f : α → β)
    (l : List α) (h : ∀ a ∈ l, g a = some (f a)) : l.filterMap g = l.map f := by
  induction l with
  | nil => rfl
  | cons x xs ih =>
      rw [List.filterMap_cons, h x (List.mem_cons_self x xs), List.map_cons,
        ih fun a ha => h a (List.mem_cons_of_mem _ ha)]

/-- C6: the rendered page links are `min 5 pageCount` many, hence at most
five distinct numbers; every link lies in `[1, pageCount]`; and away from
the ends (`3 ≤ currentPage` and `currentPage + 2 ≤ pageCount`) they are
exactly the five pages centred on the current page. -/
theorem pageLinks_correct (cp pc : Nat) :
    (pageLinks cp pc).length = min 5 pc ∧
    (∀ x ∈ pageLinks cp pc, 1 ≤ x ∧ x ≤ (pc : Int)) ∧
    (pageLinks cp pc).dedup.length ≤ 5 ∧
    (3 ≤ cp → cp + 2 ≤ pc →
      pageLinks cp pc
        = [(cp : Int) - 2, (cp : Int) - 1, (cp : Int), (cp : Int) + 1, (cp : Int) + 2]) := by
  have hmap : pageLinks cp pc
      = (List.range (min 5 pc)).map
          (fun i : Nat => max 1 (min ((cp : Int) - 2 + (i : Int)) (pc : Int))) := by
    unfold pageLinks
    apply filterMap_total_eq_map
    intro i hi
    have hpc : 0 < pc := by
      rcases Nat.eq_zero_or_pos pc with h0 | h1
      · subst h0; simp [List.mem_range] at hi
      · exact h1
    have h1 : (1 : Int) ≤ (pc : Int) := by exact_mod_cast hpc
    simp only []
    rw [if_neg (by omega)]
  refine ⟨?_, ?_, ?_, ?_⟩
  · rw [hmap, List.length_map, List.length_range]
  · intro x hx
    rw [hmap] at hx
    rcases List.mem_map.mp hx with ⟨i, hi, rfl⟩
    have hpc : 0 < pc := by
      rcases Nat.eq_zero_or_pos pc with h0 | h1
      · subst h0; simp [List.mem_range] at hi
      · exact h1
    have h1 : (1 : Int) ≤ (pc : Int) := by exact_mod_cast hpc
    constructor <;> omega
  · calc (pageLinks cp pc).dedup.length
        ≤ (pageLinks cp pc).length := (List.dedup_sublist _).length_le
      _ ≤ 5 := by rw [hmap, List.length_map, List.length_range]; omega
  · intro h3 h5
    rw [hmap, show min 5 pc = 5 by omega,
      show List.range 5 = [0, 1, 2, 3, 4] from rfl]
    simp only [List.map_cons, List.map_nil, List.cons.injEq, and_true]
    have hcp : (3 : Int) ≤ (cp : Int) := by exact_mod_cast h3
    have hpc : (cp : Int) + 2 ≤ (pc : Int) := by exact_mod_cast h5
    push_cast
    omega

/-- Witness for C6 at current page 5 with 9 pages. -/
theorem pageLinks_correct_witness :
    pageLinks 5 9 = [3, 4, 5, 6, 7] := by
  have h := (pageLinks_correct 5 9).2.2.2 (by norm_num) (by norm_num)
  norm_num at h
  exact h

/-- C2: when the status-update mutation returns at least one row, the new
local state has the same length, each row keeps every field other than the
status, rows whose id differs from the target are unchanged, the target
row gets the status of the returned row, the single toast raised is the
non-destructive confirmation, and the only remote operation issued is the
update itself (no re-fetch). -/
theorem updateOrderStatus_success (orders : List Order) (orderId : String)
    (newStatus : OrderStatus) (r : Order) (rest : List Order) :
    (updateOrderStatus orders orderId newStatus (.ok (r :: rest))).orders.length
      = orders.length ∧
    (∀ i : Nat, ∀ o o' : Order,
      orders[i]? = some o →
      (updateOrderStatus orders orderId newStatus (.ok (r :: rest))).orders[i]? = some o' →
      (o'.id = o.id ∧ o'.customer_name = o.customer_name ∧
       o'.customer_email = o.customer_email ∧ o'.order_date = o.order_date ∧
       o'.total_amount = o.total_amount ∧ o'.items = o.items ∧
       o'.shipping_address = o.shipping_address) ∧
      (o.id ≠ orderId → o' = o) ∧
      (o.id = orderId → o'.status = r.status)) ∧
    (updateOrderStatus orders orderId newStatus (.ok (r :: rest))).toasts
      = [⟨"Order status updated",
          "Order " ++ orderId ++ " status changed to " ++ statusToString newStatus,
          .default⟩] ∧
    (updateOrderStatus orders orderId newStatus (.ok (r :: rest))).ops
      = [.updateById orderId newStatus] ∧
    OrdersOp.selectAll ∉ (updateOrderStatus orders orderId newStatus (.ok (r :: rest))).ops := by
  refine ⟨by simp [updateOrderStatus], ?_, rfl, rfl, by simp [updateOrderStatus]⟩
  intro i o o' ho ho'
  simp only [updateOrderStatus, List.getElem?_map, ho, Option.map_some'] at ho'
  injection ho' with ho2
  subst ho2
  by_cases hid : o.id = orderId
  · rw [if_pos hid]
    exact ⟨⟨rfl, rfl, rfl, rfl, rfl, rfl, rfl⟩, fun hne => absurd hid hne, fun _ => rfl⟩
  · rw [if_neg hid]
    exact ⟨⟨rfl, rfl, rfl, rfl, rfl, rfl, rfl⟩, fun _ => rfl, fun h => absurd h hid⟩

/-- Witness for C2: updating `ord-1` to `shipped` in a one-order list. -/
theorem updateOrderStatus_success_witness :
    (updateOrderStatus [sampleOrder] "ord-1" .shipped (.ok [sampleShipped])).toasts
      = [⟨"Order status updated", "Order ord-1 status changed to shipped", .default⟩] ∧
    sampleShipped.status = sampleShipped.status := by
  have h := updateOrderStatus_success [sampleOrder] "ord-1" .shipped sampleShipped []
  refine ⟨by rw [h.2.2.1]; decide, ?_⟩
  exact (h.2.1 0 sampleOrder sampleShipped rfl (by decide)).2.2 (by decide)

/-- C10: a status-update response with zero rows leaves the local orders
unchanged and raises the destructive "Failed to update status" toast, and
on the success path the status written locally is the one carried by the
first returned backend row. -/
theorem updateOrderStatus_zero_rows (orders : List Order) (orderId : String)
    (newStatus : OrderStatus) :
    (updateOrderStatus orders orderId newStatus (.ok [])).orders = orders ∧
    (updateOrderStatus orders orderId newStatus (.ok [])).toasts
      = [⟨"Failed to update status", "Order not found or no changes made.", .destructive⟩] ∧
    (∀ r : Order, ∀ rest : List Order, ∀ i : Nat, ∀ o o' : Order,
      orders[i]? = some o →
      (updateOrderStatus orders orderId newStatus (.ok (r :: rest))).orders[i]? = some o' →
      o.id = orderId → o'.status = r.status) := by
  refine ⟨rfl, rfl, ?_⟩
  intro r rest i o o' ho ho' hid
  simp only [updateOrderStatus, List.getElem?_map, ho, Option.map_some'] at ho'
  injection ho' with ho2
  subst ho2
  rw [if_pos hid]

/-- Witness for C10: zero rows leave the single-order list untouched;
with a backend row whose status is `shipped` but a requested status of
`pending`, the status written is the backend one. -/
theorem updateOrderStatus_zero_rows_witness :
    (updateOrderStatus [sampleOrder] "ord-1" .pending (.ok [])).orders = [sampleOrder] ∧
    sampleShipped.status = backendRow.status := by
  have h := updateOrderStatus_zero_rows [sampleOrder] "ord-1" .pending
  exact ⟨h.1, h.2.2 backendRow [] 0 sampleOrder sampleShipped rfl (by decide) rfl⟩

/-- C7: for an authenticated in-stock add-to-cart, an existing
`(user, product)` pair (one row) leads to zero mutations, the
"Already in Cart" notice, an unchanged table and a pair count that stays
1; an absent pair leads to exactly one inserted row with quantity 1, the
confirmation notice, and a pair count of 1. -/
theorem handleAddToCart_correct (uid : Nat) (name : String) (pid : Int)
    (cart : List CartRow) :
    (cartPairCount cart uid pid = 1 →
      (handleAddToCart (some uid) true name pid cart none none).cart = cart ∧
      (handleAddToCart (some uid) true name pid cart none none).ops = [] ∧
      (handleAddToCart (some uid) true name pid cart none none).toasts
        = [⟨"Already in Cart", name ++ " is already in your cart.", .default⟩] ∧
      cartPairCount (handleAddToCart (some uid) true name pid cart none none).cart uid pid
        = 1) ∧
    (cartPairCount cart uid pid = 0 →
      (handleAddToCart (some uid) true name pid cart none none).cart
        = cart ++ [⟨uid, pid, 1⟩] ∧
      (handleAddToCart (some uid) true name pid cart none none).ops
        = [.insertRow ⟨uid, pid, 1⟩] ∧
      (handleAddToCart (some uid) true name pid cart none none).toasts
        = [⟨"Added to Cart", name ++ " has been added to your cart.", .success⟩] ∧
      cartPairCount (handleAddToCart (some uid) true name pid cart none none).cart uid pid
        = 1) := by
  have key : handleAddToCart (some uid) true name pid cart none none
      = (match (cart.filter (fun r => decide (r.user_id = uid ∧ r.product_id = pid))).head? with
         | some _ =>
             ⟨cart, [⟨"Already in Cart", name ++ " is already in your cart.", .default⟩], []⟩
         | none =>
             ⟨cart ++ [⟨uid, pid, 1⟩],
              [⟨"Added to Cart", name ++ " has been added to your cart.", .success⟩],
              [.insertRow ⟨uid, pid, 1⟩]⟩) := rfl
  constructor
  · intro h1
    rcases hf : cart.filter (fun r => decide (r.user_id = uid ∧ r.product_id = pid))
      with _ | ⟨a, t⟩
    · unfold cartPairCount at h1
      rw [hf] at h1
      cases h1
    · rw [key, hf]
      exact ⟨rfl, rfl, rfl, h1⟩
  · intro h0
    unfold cartPairCount at h0
    have hf : cart.filter (fun r => decide (r.user_id = uid ∧ r.product_id = pid)) = [] :=
      List.length_eq_zero.mp h0
    rw [key, hf]
    refine ⟨rfl, rfl, rfl, ?_⟩
    show cartPairCount (cart ++ [⟨uid, pid, 1⟩]) uid pid = 1
    unfold cartPairCount
    rw [List.filter_append, hf]
    simp

/-- Witness for C7: an existing pair causes no mutation; an absent pair
yields the inserted quantity-1 row. -/
theorem handleAddToCart_correct_witness :
    (handleAddToCart (some 7) true "Silk Saree" 3 [⟨7, 3, 1⟩] none none).ops = [] ∧
    (handleAddToCart (some 7) true "Silk Saree" 3 [] none none).cart = [⟨7, 3, 1⟩] := by
  refine ⟨((handleAddToCart_correct 7 "Silk Saree" 3 [⟨7, 3, 1⟩]).1 (by decide)).2.1, ?_⟩
  have h := ((handleAddToCart_correct 7 "Silk Saree" 3 []).2 (by decide)).1
  simpa using h

/-- Auxiliary: the wishlist row predicate tests equality with the
`(user, product)` row. -/
theorem wish_pred_iff (uid : Nat) (pid : Int) (r : WishRow) :
    decide (r.user_id = uid ∧ r.product_id = pid) = true ↔ r = ⟨uid, pid⟩ := by
  cases r with
  | mk u p => simp [WishRow.mk.injEq]

/-- Auxiliary: a pair count of one pins the filtered sublist down to the
single `(user, product)` row. -/
theorem wish_filter_eq_single (uid : Nat) (pid : Int) (db : List WishRow)
    (h : wishPairCount db uid pid = 1) :
    db.filter (fun r => decide (r.user_id = uid ∧ r.product_id = pid)) = [⟨uid, pid⟩] := by
  unfold wishPairCount at h
  rcases hf : db.filter (fun r => decide (r.user_id = uid ∧ r.product_id = pid))
    with _ | ⟨a, t⟩
  · rw [hf] at h; cases h
  · rw [hf] at h
    have ht : t = [] := by
      apply List.length_eq_zero.mp
      simp only [List.length_cons] at h
      omega
    subst ht
    have ha : a = ⟨uid, pid⟩ := by
      have hmem : a ∈ db.filter (fun r => decide (r.user_id = uid ∧ r.product_id = pid)) := by
        rw [hf]; exact List.mem_cons_self _ _
      exact (wish_pred_iff uid pid a).mp (List.mem_filter.mp hmem).2
    subst ha
    exact hf

/-- Auxiliary: filtering with a predicate after keeping only its
complement yields nothing. -/
theorem filter_not_filter {α : Type} (p : α → Bool) (l : List α) :
    (l.filter (fun a => !(p a))).filter p = [] := by
  induction l with
  | nil => rfl
  | cons x xs ih =>
      by_cases hx : p x = true
      · simp [List.filter_cons, hx, ih]
      · simp [List.filter_cons, hx, ih]

/-- Auxiliary: a list with no element satisfying `p` is unchanged by
filtering with the complement of `p`. -/
theorem filter_not_self {α : Type} (p : α → Bool) (l : List α)
    (h : l.filter p = []) : l.filter (fun a => !(p a)) = l := by
  apply List.filter_eq_self.mpr
  intro a ha
  have hpa := List.filter_eq_nil_iff.mp h a ha
  simp only [Bool.not_eq_true'] at hpa ⊢
  simp [hpa]

/-- Auxiliary: filtering twice with the same predicate equals filtering
once. -/
theorem filter_idem {α : Type} (p : α → Bool) (l : List α) :
    (l.filter p).filter p = l.filter p := by
  apply List.filter_eq_self.mpr
  intro a ha
  exact (List.mem_filter.mp ha).2

/-- C8: starting from a flag consistent with the table (one row when
wishlisted, none otherwise), toggling twice with both mutations
succeeding restores the membership flag, restores the table rows for the
pair as well as all other rows, and issues exactly two mutations: one
insert and one delete, in either order. -/
theorem handleToggleWishlist_involutive (uid : Nat) (name : String) (pid : Int)
    (flag : Bool) (db : List WishRow)
    (h : wishPairCount db uid pid = if flag then 1 else 0) :
    (toggleTwiceSecond uid name pid flag db).wishlisted = flag ∧
    (toggleTwiceSecond uid name pid flag db).db.filter
        (fun r => decide (r.user_id = uid ∧ r.product_id = pid))
      = db.filter (fun r => decide (r.user_id = uid ∧ r.product_id = pid)) ∧
    (toggleTwiceSecond uid name pid flag db).db.filter
        (fun r => !(decide (r.user_id = uid ∧ r.product_id = pid)))
      = db.filter (fun r => !(decide (r.user_id = uid ∧ r.product_id = pid))) ∧
    (toggleTwiceFirst uid name pid flag db).ops
        ++ (toggleTwiceSecond uid name pid flag db).ops
      = (if flag then [WishOp.deleteRow uid pid, WishOp.insertRow ⟨uid, pid⟩]
         else [WishOp.insertRow ⟨uid, pid⟩, WishOp.deleteRow uid pid]) ∧
    ((toggleTwiceFirst uid name pid flag db).ops
        ++ (toggleTwiceSecond uid name pid flag db).ops).length = 2 := by
  cases flag with
  | true =>
      have hsingle := wish_filter_eq_single uid pid db (by simpa using h)
      have h2 : toggleTwiceSecond uid name pid true db
          = ⟨true,
             db.filter (fun r => !(decide (r.user_id = uid ∧ r.product_id = pid)))
               ++ [⟨uid, pid⟩],
             [⟨"Added to Wishlist", name ++ " has been added to your wishlist.", .success⟩],
             [.insertRow ⟨uid, pid⟩]⟩ := rfl
      refine ⟨rfl, ?_, ?_, rfl, rfl⟩
      · rw [h2]
        show (db.filter _ ++ [(⟨uid, pid⟩ : WishRow)]).filter _ = _
        rw [List.filter_append, filter_not_filter, hsingle]
        simp
      · rw [h2]
        show (db.filter _ ++ [(⟨uid, pid⟩ : WishRow)]).filter _ = _
        rw [List.filter_append, filter_idem]
        simp
  | false =>
      have hnil : db.filter (fun r => decide (r.user_id = uid ∧ r.product_id = pid)) = [] := by
        have h0 : wishPairCount db uid pid = 0 := h
        unfold wishPairCount at h0
        exact List.length_eq_zero.mp h0
      have h2 : toggleTwiceSecond uid name pid false db
          = ⟨false,
             (db ++ [(⟨uid, pid⟩ : WishRow)]).filter
               (fun r => !(decide (r.user_id = uid ∧ r.product_id = pid))),
             [⟨"Removed from Wishlist", name ++ " has been removed from your wishlist.",
               .default⟩],
             [.deleteRow uid pid]⟩ := rfl
      have hdb : (toggleTwiceSecond uid name pid false db).db = db := by
        rw [h2]
        show (db ++ [(⟨uid, pid⟩ : WishRow)]).filter _ = db
        rw [List.filter_append]
        have hrow : ([(⟨uid, pid⟩ : WishRow)]).filter
            (fun r => !(decide (r.user_id = uid ∧ r.product_id = pid))) = [] := by
          simp
        rw [hrow, List.append_nil]
        exact filter_not_self _ _ hnil
      exact ⟨rfl, by rw [hdb], by rw [hdb], rfl, rfl⟩

/-- Witness for C8: a double toggle from the not-wishlisted state over an
empty table. -/
theorem handleToggleWishlist_involutive_witness :
    (toggleTwiceSecond 7 "Silk Saree" 3 false []).wishlisted = false ∧
    (toggleTwiceFirst 7 "Silk Saree" 3 false []).ops
        ++ (toggleTwiceSecond 7 "Silk Saree" 3 false []).ops
      = [WishOp.insertRow ⟨7, 3⟩, WishOp.deleteRow 7 3] := by
  have h := handleToggleWishlist_involutive 7 "Silk Saree" 3 false [] (by decide)
  exact ⟨h.1, h.2.2.2.1⟩

/-- Auxiliary: character counts add over string concatenation. -/
theorem countChar_append (c : Char) (s t : String) :
    countChar c (s ++ t) = countChar c s + countChar c t := by
  simp [countChar, String.data_append, List.count_append]

/-- Auxiliary: joining newline-free parts with newlines yields one
newline fewer than there are parts. -/
theorem countChar_joinWith (parts : List String)
    (hall : ∀ p ∈ parts, countChar '\n' p = 0) :
    parts ≠ [] → countChar '\n' (joinWith "\n" parts) = parts.length - 1 := by
  induction parts with
  | nil => intro hne; cases hne rfl
  | cons x xs ih =>
      intro _
      cases xs with
      | nil =>
          simpa using hall x (List.mem_cons_self _ _)
      | cons y ys =>
          have hx : countChar '\n' x = 0 := hall x (List.mem_cons_self _ _)
          have hrec := ih (fun p hp => hall p (List.mem_cons_of_mem _ hp)) (by simp)
          show countChar '\n' (x ++ "\n" ++ joinWith "\n" (y :: ys))
            = (x :: y :: ys).length - 1
          rw [countChar_append, countChar_append, hx, hrec]
          have hnl : countChar '\n' "\n" = 1 := rfl
          rw [hnl]
          simp only [List.length_cons]
          omega

/-- C9 counterexample: with zero fetched orders the generator raises two
non-destructive notices (the unconditional progress notice and the
"No Data" notice), not exactly one. -/
theorem report_zero_orders_two_notices :
    (handleGenerateReport sampleFmt (.ok [])).downloads = [] ∧
    ((handleGenerateReport sampleFmt (.ok [])).toasts.filter
       (fun t => decide (t.variant ≠ TVariant.destructive))).length = 2 ∧
    ¬ ((handleGenerateReport sampleFmt (.ok [])).toasts.filter
       (fun t => decide (t.variant ≠ TVariant.destructive))).length = 1 := by
  refine ⟨rfl, by decide, by decide⟩

/-- C9 (amended): report generation always raises the progress notice
first; with zero fetched orders it produces no downloadable file and
raises exactly one further informational notice (two non-destructive
notices in total); with N > 0 orders the downloaded file is named
`orders_report.csv`, its text is the fixed header line followed by the N
comma-joined data rows, all joined by newlines — N+1 newline-separated
lines for newline-free rows — and a success notice is raised. -/
theorem handleGenerateReport_correct (fmtDate : String → String)
    (r : ReportOrder) (rest : List ReportOrder)
    (hrow : ∀ o ∈ r :: rest, countChar '\n' (csvRow fmtDate o) = 0) :
    (handleGenerateReport fmtDate (.ok [])).downloads = [] ∧
    (handleGenerateReport fmtDate (.ok [])).toasts
      = [generatingToast, ⟨"No Data", "No orders found to generate a report.", .default⟩] ∧
    (handleGenerateReport fmtDate (.ok (r :: rest))).downloads
      = [("orders_report.csv", csvText fmtDate (r :: rest))] ∧
    csvText fmtDate (r :: rest)
      = joinWith "\n"
          ("Order ID,Customer Name,Customer Email,Order Date,Status,Total Amount"
            :: (r :: rest).map (csvRow fmtDate)) ∧
    (∀ o ∈ r :: rest, csvRow fmtDate o
       = o.id ++ "," ++ (o.customer_name ++ "," ++ (o.customer_email ++ "," ++
         (fmtDate o.order_date ++ "," ++ (o.status ++ "," ++ toString o.total_amount))))) ∧
    numLines (csvText fmtDate (r :: rest)) = (r :: rest).length + 1 ∧
    (handleGenerateReport fmtDate (.ok (r :: rest))).toasts
      = [generatingToast,
         ⟨"Report Generated Successfully", "The orders report has been downloaded.",
          .success⟩] := by
  have hheader : joinWith "," csvHeaders
      = "Order ID,Customer Name,Customer Email,Order Date,Status,Total Amount" := by decide
  have htext : csvText fmtDate (r :: rest)
      = joinWith "\n"
          ("Order ID,Customer Name,Customer Email,Order Date,Status,Total Amount"
            :: (r :: rest).map (csvRow fmtDate)) := by
    unfold csvText
    rw [hheader]
  refine ⟨rfl, rfl, rfl, htext, ?_, ?_, rfl⟩
  · intro o _
    rfl
  · have hall : ∀ p ∈ ("Order ID,Customer Name,Customer Email,Order Date,Status,Total Amount"
        :: (r :: rest).map (csvRow fmtDate)), countChar '\n' p = 0 := by
      intro p hp
      rcases List.mem_cons.mp hp with hp1 | hp2
      · subst hp1; decide
      · rcases List.mem_map.mp hp2 with ⟨o, ho, rfl⟩
        exact hrow o ho
    have hcnt := countChar_joinWith _ hall (by simp)
    unfold numLines
    rw [htext, hcnt]
    simp

/-- Witness for C9: a single-order report has two lines and is downloaded
under the fixed filename. -/
theorem handleGenerateReport_correct_witness :
    numLines (csvText sampleFmt [sampleReport]) = 2 ∧
    (handleGenerateReport sampleFmt (.ok [sampleReport])).downloads
      = [("orders_report.csv", csvText sampleFmt [sampleReport])] := by
  have h := handleGenerateReport_correct sampleFmt sampleReport [] (by decide)
  exact ⟨by simpa using h.2.2.2.2.2.1, h.2.2.1⟩

end Colne
